import Mathlib

/-!
Logger configuration of the Transifex API client

A shallow embedding of `src/logger.go` (package `transifex_api_client`): the
three setters `setLoggerDestination`, `setLoggerFormatter`, `setLoggerLevel`,
the close handler `setupCloseHandler` and the driver `configureLogger`.

Go values are embedded as follows.

* A Go `error` is an `Option String`: `none` is `nil`, `some msg` is an error
  whose `Error()` text is `msg`.
* A `*logrus.Logger` is passed by reference in Go and mutated in place; here a
  setter takes the logger state and returns the state after the call.
* Calls that leave the program (opening a file, registering for signals,
  writing a log entry, closing a file, exiting) are recorded as `Event`s in
  program order.
* What lies outside the program and the libraries embedded here is a
  `Runtime` value the functions take: the answer of the operating system to
  `os.OpenFile`, and the quoting `strconv.Quote` used in one error text.

The functions of the Go standard library and of `github.com/sirupsen/logrus`
that `logger.go` calls are embedded from those libraries: `strings.ToLower`,
`logrus.ParseLevel`, `Logger.IsLevelEnabled`, `Logger.Debug`.
-/

namespace TransifexLogger

/-! ## Go standard library -/

/-- Lower-case form of one rune, after Go `unicode.ToLower`. The ASCII letters
`A`..`Z` go to `a`..`z`. U+0130 and U+212A are the two code points outside ASCII
whose lower-case form is an ASCII letter (`i` and `k`). Any other code point
outside ASCII has a lower-case form outside ASCII; the Unicode case tables are
not reproduced and such a code point is left in place. The program only
compares lower-cased strings with ASCII constants, and the result here equals
an ASCII string exactly when the result in Go does. -/
def unicode.ToLower (r : Char) : Char :=
  if 65 ≤ r.toNat ∧ r.toNat ≤ 90 then Char.ofNat (r.toNat + 32)
  else if r.toNat = 0x130 then 'i'
  else if r.toNat = 0x212A then 'k'
  else r

/-- Go `strings.ToLower`: every rune of the string mapped to lower case. -/
def strings.ToLower (s : String) : String :=
  String.mk (s.data.map unicode.ToLower)

/-- An open file, Go `*os.File`: the name it was opened under and its
descriptor. -/
structure File where
  name : String
  fd : Nat
  deriving DecidableEq, Repr

/-- Go `os.O_WRONLY` (Linux value). -/
def os.O_WRONLY : Nat := 0x1
/-- Go `os.O_RDWR` (Linux value). -/
def os.O_RDWR : Nat := 0x2
/-- Go `os.O_CREATE` (Linux value of `O_CREAT`). -/
def os.O_CREATE : Nat := 0x40
/-- Go `os.O_TRUNC` (Linux value). -/
def os.O_TRUNC : Nat := 0x200
/-- Go `os.O_APPEND` (Linux value). -/
def os.O_APPEND : Nat := 0x400

/-- What the program uses and neither it nor the embedded libraries determine:
the answer of the operating system to `os.OpenFile name flag perm`, either an
open file or the text of the error, and Go `strconv.Quote`, the quoting of the
format verb `%q`. -/
structure Runtime where
  OpenFile : String → Nat → Nat → Except String File
  Quote : String → String

/-- Signals the program names. -/
inductive Signal where
  | Interrupt
  | SIGTERM
  | SIGHUP
  | SIGQUIT
  deriving DecidableEq, Repr

/-! ## logrus -/

/-- Severity levels of logrus, `logrus.Level`, in the order of their numeric
values: `PanicLevel` is 0 and `TraceLevel` is 6. -/
inductive Level where
  | PanicLevel
  | FatalLevel
  | ErrorLevel
  | WarnLevel
  | InfoLevel
  | DebugLevel
  | TraceLevel
  deriving DecidableEq, Repr

/-- Numeric value of a `logrus.Level` (a `uint32` in Go). -/
def Level.toNat : Level → Nat
  | .PanicLevel => 0
  | .FatalLevel => 1
  | .ErrorLevel => 2
  | .WarnLevel => 3
  | .InfoLevel => 4
  | .DebugLevel => 5
  | .TraceLevel => 6

/-- Go `logrus.ParseLevel`: the level named by a string, compared after
`strings.ToLower`; both `warn` and `warning` name `WarnLevel`. The text of the
error (`not a valid logrus Level:` and the quoted input) is formatted with
`%q`, the quoting of the runtime. -/
def logrus.ParseLevel (rt : Runtime) (lvl : String) : Except String Level :=
  let key := strings.ToLower lvl
  if key = "panic" then .ok .PanicLevel
  else if key = "fatal" then .ok .FatalLevel
  else if key = "error" then .ok .ErrorLevel
  else if key = "warn" ∨ key = "warning" then .ok .WarnLevel
  else if key = "info" then .ok .InfoLevel
  else if key = "debug" then .ok .DebugLevel
  else if key = "trace" then .ok .TraceLevel
  else .error ("not a valid logrus Level: " ++ rt.Quote lvl)

/-- Formatters the program installs: `&logrus.JSONFormatter{}` and
`&logrus.TextFormatter{}`, both with default fields. -/
inductive Formatter where
  | JSONFormatter
  | TextFormatter
  deriving DecidableEq, Repr

/-- Where a logger writes, Go `io.Writer`: the standard streams or an open
file. -/
inductive Writer where
  | Stdout
  | Stderr
  | file (f : File)
  deriving DecidableEq, Repr

/-- State of a `logrus.Logger` that the program touches: output, formatter and
level. -/
structure Logger where
  Out : Writer
  Formatter : Formatter
  Level : Level
  deriving DecidableEq, Repr

/-- Go `logger.SetOutput`. -/
def Logger.SetOutput (logger : Logger) (output : Writer) : Logger :=
  { logger with Out := output }

/-- Go `logger.SetFormatter`. -/
def Logger.SetFormatter (logger : Logger) (formatter : TransifexLogger.Formatter) : Logger :=
  { logger with Formatter := formatter }

/-- Go `logger.SetLevel`. -/
def Logger.SetLevel (logger : Logger) (level : TransifexLogger.Level) : Logger :=
  { logger with Level := level }

/-- Go `logger.IsLevelEnabled`: `logger.level() >= level` on the numeric
values. -/
def Logger.IsLevelEnabled (logger : Logger) (level : TransifexLogger.Level) : Bool :=
  decide (level.toNat ≤ logger.Level.toNat)

/-- What the program does to the outside, in program order. -/
inductive Event where
  | OpenFile (name : String) (flag : Nat) (perm : Nat)
  | Notify (signals : List Signal)
  | Write (out : Writer) (format : Formatter) (level : Level) (msg : String)
  | Close (f : File)
  | Exit (code : Int)
  deriving DecidableEq, Repr

/-- Go `logger.Log(level, msg)`: when the level is enabled, one entry is
formatted with the logger's formatter and written to its output; otherwise
nothing happens. -/
def Logger.Log (logger : Logger) (level : TransifexLogger.Level) (msg : String) :
    List Event :=
  if logger.IsLevelEnabled level then [Event.Write logger.Out logger.Formatter level msg]
  else []

/-- Go `logger.Debug(msg)`, which is `logger.Log(DebugLevel, msg)`. -/
def Logger.Debug (logger : Logger) (msg : String) : List Event :=
  logger.Log .DebugLevel msg

/-! ## logger.go -/

/-- Result of `setLoggerDestination`: the returned file handle and error, the
logger after the call and the system calls made. -/
structure DestinationResult where
  file : Option File
  err : Option String
  logger : Logger
  events : List Event
  deriving DecidableEq, Repr

/-- Go `setLoggerDestination` (logger.go lines 42-61). -/
def setLoggerDestination (rt : Runtime) (logger : Logger) (dst : String) :
    DestinationResult :=
  if dst.length = 0 ∨ strings.ToLower dst = "stdout" then
    { file := none, err := none, logger := logger.SetOutput .Stdout, events := [] }
  else
    let flag := os.O_APPEND ||| os.O_CREATE ||| os.O_WRONLY
    let call := Event.OpenFile dst flag 0o644
    match rt.OpenFile dst flag 0o644 with
    | .error cause =>
      { file := none,
        err := some ("logger: New(): unable to open the file '" ++ dst ++ "' for writing: "
                      ++ cause),
        logger := logger, events := [call] }
    | .ok logFile =>
      { file := some logFile, err := none, logger := logger.SetOutput (.file logFile),
        events := [call] }

/-- Go `setLoggerLevel` (logger.go lines 63-85): the returned error and the
logger after the call. -/
def setLoggerLevel (rt : Runtime) (logger : Logger) (levelStr : String) :
    Option String × Logger :=
  if levelStr = "" then
    match logrus.ParseLevel rt "info" with
    | .error cause =>
      (some ("logger: New(): unable to set the logging level 'info': " ++ cause), logger)
    | .ok level => (none, logger.SetLevel level)
  else
    match logrus.ParseLevel rt levelStr with
    | .error cause =>
      (some ("logger: New(): unable to set the logging level '" ++ levelStr ++ "': "
              ++ cause), logger)
    | .ok level => (none, logger.SetLevel level)

/-- Go `setLoggerFormatter` (logger.go lines 88-106): the returned error and
the logger after the call. The case `""` falls through into the case
`"json"`. -/
def setLoggerFormatter (logger : Logger) (formatter : String) : Option String × Logger :=
  let key := strings.ToLower formatter
  if key = "" then (none, logger.SetFormatter .JSONFormatter)
  else if key = "json" then (none, logger.SetFormatter .JSONFormatter)
  else if key = "text" then (none, logger.SetFormatter .TextFormatter)
  else (some ("logger: New(): unknown logger formatter '" ++ formatter ++ "'"), logger)

/-- The three settings `configureLogger` reads from the configuration
(`config.LogDestination`, `config.LogFormatter`, `config.LogLevel`). -/
structure Config where
  LogDestination : String
  LogFormatter : String
  LogLevel : String
  deriving DecidableEq, Repr

/-- A goroutine started by `setupCloseHandler`, blocked on its channel: the
signals the channel is registered for and the file the closure holds. -/
structure CloseHandler where
  signals : List Signal
  file : Option File
  deriving DecidableEq, Repr

/-- State of the process around `configureLogger`: the logger `t.l` of the
client, the close handlers waiting for a signal, and the events so far. -/
structure State where
  l : Logger
  handlers : List CloseHandler
  events : List Event
  deriving DecidableEq, Repr

/-- Body of the goroutine of `setupCloseHandler` once a signal has arrived
(logger.go lines 113-119): the debug message, the close of the file when the
handle is not nil (the error of `Close` is dropped), and `os.Exit(0)`. -/
def closeHandler (logger : Logger) (f : Option File) : List Event :=
  logger.Debug "- 'Ctrl + C' was pressed in the Terminal. Terminating..."
    ++ (match f with
        | some file => [Event.Close file]
        | none => [])
    ++ [Event.Exit 0]

/-- Go `setupCloseHandler` (logger.go lines 108-121): the channel is registered
for `os.Interrupt` and `syscall.SIGTERM` and the goroutine starts waiting. -/
def setupCloseHandler (s : State) (f : Option File) : State :=
  { s with
    events := s.events ++ [Event.Notify [.Interrupt, .SIGTERM]],
    handlers := s.handlers ++ [{ signals := [.Interrupt, .SIGTERM], file := f }] }

/-- Arrival of signal `sig` at the channel of handler `h`: when the channel is
registered for the signal the goroutine runs `closeHandler` on the logger as it
is then; otherwise nothing happens. -/
def State.receive (s : State) (h : CloseHandler) (sig : Signal) : State :=
  if sig ∈ h.signals then { s with events := s.events ++ closeHandler s.l h.file }
  else s

/-- Go `configureLogger` (logger.go lines 14-40): the returned error and the
state after the call. -/
def configureLogger (rt : Runtime) (t : State) (config : Config) : Option String × State :=
  let d := setLoggerDestination rt t.l config.LogDestination
  let t1 : State := { t with l := d.logger, events := t.events ++ d.events }
  match d.err with
  | some err => (some err, t1)
  | none =>
    match setLoggerFormatter t1.l config.LogFormatter with
    | (some err, l2) => (some err, { t1 with l := l2 })
    | (none, l2) =>
      match setLoggerLevel rt l2 config.LogLevel with
      | (some err, l3) => (some err, { t1 with l := l3 })
      | (none, l3) =>
        let t4 := setupCloseHandler { t1 with l := l3 } d.file
        (none,
          { t4 with
            events := t4.events
              ++ t4.l.Debug ("logger level is set to '" ++ config.LogLevel ++ "'")
              ++ t4.l.Debug ("logger destination is set to '" ++ config.LogDestination ++ "'")
              ++ t4.l.Debug ("logger formatter is set to '" ++ config.LogFormatter ++ "'") })

/-! ## Vocabulary of the specification -/

/-- Severity of a level in the ascending order of the glossary:
trace < debug < info < warning < error < fatal < panic. -/
def Level.severity : Level → Nat
  | .TraceLevel => 0
  | .DebugLevel => 1
  | .InfoLevel => 2
  | .WarnLevel => 3
  | .ErrorLevel => 4
  | .FatalLevel => 5
  | .PanicLevel => 6

/-- The name of each of the seven severities in the specification. -/
def Level.name : Level → String
  | .TraceLevel => "trace"
  | .DebugLevel => "debug"
  | .InfoLevel => "info"
  | .WarnLevel => "warning"
  | .ErrorLevel => "error"
  | .FatalLevel => "fatal"
  | .PanicLevel => "panic"

/-- The seven level names of the specification. -/
def supportedLevelNames : List String :=
  ["trace", "debug", "info", "warning", "error", "fatal", "panic"]

/-- The names `logrus.ParseLevel` accepts, in lower case. -/
def parsedLevelNames : List String :=
  ["panic", "fatal", "error", "warn", "warning", "info", "debug", "trace"]

/-- The text `msg` contains the text `part`. -/
def Contains (msg part : String) : Prop :=
  part.data <:+: msg.data

instance (msg part : String) : Decidable (Contains msg part) := by
  unfold Contains
  infer_instance

/-- The three settings, for applying the setters in a chosen order. -/
inductive Setting where
  | Destination
  | Formatter
  | Level
  deriving DecidableEq, Repr

/-- One setter applied to the logger: the error it returns and the logger
after the call. -/
def applySetting (rt : Runtime) (config : Config) (k : Setting) (logger : Logger) :
    Option String × Logger :=
  match k with
  | .Destination =>
    ((setLoggerDestination rt logger config.LogDestination).err,
      (setLoggerDestination rt logger config.LogDestination).logger)
  | .Formatter => setLoggerFormatter logger config.LogFormatter
  | .Level => setLoggerLevel rt logger config.LogLevel

/-- The setters applied in the given order, stopping at the first error: the
logger after all of them, or `none` when one failed. -/
def applySettings (rt : Runtime) (config : Config) : List Setting → Logger → Option Logger
  | [], logger => some logger
  | k :: rest, logger =>
    match applySetting rt config k logger with
    | (some _, _) => none
    | (none, next) => applySettings rt config rest next

/-- First step of `configureLogger`: the destination setter on the logger of
the client. -/
def destinationStep (rt : Runtime) (t : State) (config : Config) : DestinationResult :=
  setLoggerDestination rt t.l config.LogDestination

/-- Second step of `configureLogger`: the formatter setter on the logger the
first step left. -/
def formatterStep (rt : Runtime) (t : State) (config : Config) : Option String × Logger :=
  setLoggerFormatter (destinationStep rt t config).logger config.LogFormatter

/-- Third step of `configureLogger`: the level setter on the logger the second
step left. -/
def levelStep (rt : Runtime) (t : State) (config : Config) : Option String × Logger :=
  setLoggerLevel rt (formatterStep rt t config).2 config.LogLevel

/-- An event is the writing of a log entry. -/
def Event.isWrite : Event → Bool
  | .Write _ _ _ _ => true
  | _ => false

/-! ## Sample values -/

/-- A logger as `logrus.New()` returns it. -/
def sampleLogger : Logger := ⟨.Stderr, .TextFormatter, .InfoLevel⟩

/-- A runtime on which every open succeeds with descriptor 3 and the quoting
puts the text between double quotes. -/
def sampleRuntime : Runtime :=
  { OpenFile := fun name _ _ => .ok ⟨name, 3⟩, Quote := fun s => "\"" ++ s ++ "\"" }

/-- A runtime on which every open fails. -/
def failingRuntime : Runtime :=
  { OpenFile := fun _ _ _ => .error "permission denied",
    Quote := fun s => "\"" ++ s ++ "\"" }

/-- A process at startup: a fresh logger, no handler, no event. -/
def sampleState : State := ⟨sampleLogger, [], []⟩

/-! ## Auxiliary facts -/

theorem contains_middle (a part b : String) : Contains (a ++ part ++ b) part := by
  unfold Contains
  exact ⟨a.data, b.data, by simp⟩

theorem contains_end (a part : String) : Contains (a ++ part) part := by
  unfold Contains
  exact ⟨a.data, [], by simp⟩

theorem contains_append_right {msg part : String} (b : String) (h : Contains msg part) :
    Contains (msg ++ b) part := by
  unfold Contains at *
  obtain ⟨u, v, huv⟩ := h
  exact ⟨u, v ++ b.data, by simp [← huv]⟩

theorem length_eq_zero_iff (s : String) : s.length = 0 ↔ s = "" := by
  constructor
  · intro h
    have hd : s.data = [] := List.length_eq_zero.mp h
    cases s
    simp_all
  · rintro rfl
    rfl

theorem parseLevel_ok_iff (rt : Runtime) (name : String) :
    (∃ level, logrus.ParseLevel rt name = .ok level) ↔
      strings.ToLower name ∈ parsedLevelNames := by
  unfold logrus.ParseLevel parsedLevelNames
  simp only [List.mem_cons, List.mem_singleton, List.not_mem_nil, or_false]
  split_ifs with h1 h2 h3 h4 h5 h6 h7 <;> simp <;> tauto

theorem parseLevel_error_of_not_mem (rt : Runtime) (name : String)
    (h : strings.ToLower name ∉ parsedLevelNames) :
    logrus.ParseLevel rt name = .error ("not a valid logrus Level: " ++ rt.Quote name) := by
  unfold parsedLevelNames at h
  simp only [List.mem_cons, List.mem_singleton, List.not_mem_nil, or_false, not_or] at h
  unfold logrus.ParseLevel
  simp [h]

theorem parseLevel_name (rt : Runtime) (level : Level) :
    logrus.ParseLevel rt level.name = .ok level := by
  cases level <;> rfl

theorem setLoggerLevel_error_of_not_mem (rt : Runtime) (logger : Logger) (name : String)
    (hne : name ≠ "") (h : strings.ToLower name ∉ parsedLevelNames) :
    setLoggerLevel rt logger name =
      (some ("logger: New(): unable to set the logging level '" ++ name ++ "': "
              ++ ("not a valid logrus Level: " ++ rt.Quote name)), logger) := by
  unfold setLoggerLevel
  rw [if_neg hne, parseLevel_error_of_not_mem rt name h]

theorem setLoggerLevel_ok_of_mem (rt : Runtime) (logger : Logger) (name : String)
    (h : strings.ToLower name ∈ parsedLevelNames) :
    ∃ level, logrus.ParseLevel rt name = .ok level ∧
      setLoggerLevel rt logger name = (none, logger.SetLevel level) := by
  obtain ⟨level, hl⟩ := (parseLevel_ok_iff rt name).mpr h
  refine ⟨level, hl, ?_⟩
  have hne : name ≠ "" := by
    rintro rfl
    revert h
    decide
  unfold setLoggerLevel
  rw [if_neg hne, hl]

theorem setLoggerDestination_of_stdout (rt : Runtime) (logger : Logger) (dst : String)
    (h : dst = "" ∨ strings.ToLower dst = "stdout") :
    setLoggerDestination rt logger dst
      = { file := none, err := none, logger := { logger with Out := Writer.Stdout },
          events := [] } := by
  unfold setLoggerDestination Logger.SetOutput
  rw [if_pos (by rw [length_eq_zero_iff]; exact h)]

theorem setLoggerDestination_of_ok (rt : Runtime) (logger : Logger) (dst : String)
    (h : ¬ (dst = "" ∨ strings.ToLower dst = "stdout")) (logFile : File)
    (hopen : rt.OpenFile dst (os.O_APPEND ||| os.O_CREATE ||| os.O_WRONLY) 0o644
      = .ok logFile) :
    setLoggerDestination rt logger dst
      = { file := some logFile, err := none,
          logger := { logger with Out := Writer.file logFile },
          events := [Event.OpenFile dst (os.O_APPEND ||| os.O_CREATE ||| os.O_WRONLY) 0o644] } := by
  unfold setLoggerDestination Logger.SetOutput
  rw [if_neg (by rw [length_eq_zero_iff]; exact h)]
  simp only [hopen]

theorem setLoggerDestination_of_error (rt : Runtime) (logger : Logger) (dst : String)
    (h : ¬ (dst = "" ∨ strings.ToLower dst = "stdout")) (cause : String)
    (hopen : rt.OpenFile dst (os.O_APPEND ||| os.O_CREATE ||| os.O_WRONLY) 0o644
      = .error cause) :
    setLoggerDestination rt logger dst
      = { file := none,
          err := some ("logger: New(): unable to open the file '" ++ dst
                        ++ "' for writing: " ++ cause),
          logger := logger,
          events := [Event.OpenFile dst (os.O_APPEND ||| os.O_CREATE ||| os.O_WRONLY) 0o644] } := by
  unfold setLoggerDestination
  rw [if_neg (by rw [length_eq_zero_iff]; exact h)]
  simp only [hopen]

/-! ## The formatter -/

/-- Claim C1. For every logger and every name, `setLoggerFormatter` returns no
error exactly when the lower-cased name is `""`, `"json"` or `"text"`. When the
lower-cased name is `""` or `"json"` the formatter becomes the JSON formatter
and nothing else changes, so `""` and `"json"` give the same result, and so do
other letter cases such as `"JSON"`. When the lower-cased name is `"text"` the
formatter becomes the plain-text formatter. For every other name, such as
`"xml"`, the call returns an error whose text contains the name as it was
passed, and the logger is unchanged. -/
theorem setLoggerFormatter_spec (logger : Logger) (name : String) :
    ((setLoggerFormatter logger name).1 = none ↔
        strings.ToLower name = "" ∨ strings.ToLower name = "json"
          ∨ strings.ToLower name = "text")
    ∧ (strings.ToLower name = "" ∨ strings.ToLower name = "json" →
        setLoggerFormatter logger name
          = (none, { logger with Formatter := Formatter.JSONFormatter }))
    ∧ setLoggerFormatter logger "" = setLoggerFormatter logger "json"
    ∧ setLoggerFormatter logger "JSON" = setLoggerFormatter logger "json"
    ∧ (strings.ToLower name = "text" →
        setLoggerFormatter logger name
          = (none, { logger with Formatter := Formatter.TextFormatter }))
    ∧ setLoggerFormatter logger "Text"
          = (none, { logger with Formatter := Formatter.TextFormatter })
    ∧ (¬ (strings.ToLower name = "" ∨ strings.ToLower name = "json"
            ∨ strings.ToLower name = "text") →
        ∃ msg, setLoggerFormatter logger name = (some msg, logger) ∧ Contains msg name)
    ∧ (∃ msg, setLoggerFormatter logger "xml" = (some msg, logger) ∧ Contains msg "xml") := by
  refine ⟨?_, ?_, rfl, rfl, ?_, rfl, ?_, ?_⟩
  · unfold setLoggerFormatter
    simp only
    split_ifs with h1 h2 h3 <;> simp [*]
  · intro h
    unfold setLoggerFormatter Logger.SetFormatter
    simp only
    rcases h with h | h
    · rw [if_pos h]
    · split_ifs <;> rfl
  · intro h
    have h1 : strings.ToLower name ≠ "" := by rw [h]; decide
    have h2 : strings.ToLower name ≠ "json" := by rw [h]; decide
    unfold setLoggerFormatter Logger.SetFormatter
    simp only
    rw [if_neg h1, if_neg h2, if_pos h]
  · intro h
    simp only [not_or] at h
    refine ⟨"logger: New(): unknown logger formatter '" ++ name ++ "'", ?_,
      contains_middle _ name _⟩
    unfold setLoggerFormatter
    simp only
    rw [if_neg h.1, if_neg h.2.1, if_neg h.2.2]
  · exact ⟨"logger: New(): unknown logger formatter '" ++ "xml" ++ "'", rfl,
      contains_middle _ "xml" _⟩

/-! ## The level -/

/-- Claim C2. For every logger and every level name that is not recognized (a
name that is not empty and whose lower-cased form is none of the names the
parser accepts, such as `"verbose"`), `setLoggerLevel` returns an error and the
logger after the call, and so its threshold, is the logger before the call. -/
theorem setLoggerLevel_unrecognized (rt : Runtime) (logger : Logger) (name : String)
    (hne : name ≠ "") (h : strings.ToLower name ∉ parsedLevelNames) :
    ∃ msg, setLoggerLevel rt logger name = (some msg, logger)
      ∧ (setLoggerLevel rt logger name).2.Level = logger.Level := by
  refine ⟨_, setLoggerLevel_error_of_not_mem rt logger name hne h, ?_⟩
  rw [setLoggerLevel_error_of_not_mem rt logger name hne h]

/-- Claim C2 at the name `"verbose"`, on a logger whose threshold is debug. -/
theorem setLoggerLevel_unrecognized_witness :
    ∃ msg, setLoggerLevel sampleRuntime ⟨.Stdout, .JSONFormatter, .DebugLevel⟩ "verbose"
        = (some msg, ⟨.Stdout, .JSONFormatter, .DebugLevel⟩)
      ∧ (setLoggerLevel sampleRuntime ⟨.Stdout, .JSONFormatter, .DebugLevel⟩ "verbose").2.Level
        = Level.DebugLevel :=
  setLoggerLevel_unrecognized sampleRuntime ⟨.Stdout, .JSONFormatter, .DebugLevel⟩ "verbose"
    (by decide) (by decide)

/-- Claim C3. For every logger, `setLoggerLevel` with the empty name returns
what it returns with the name `"info"`: no error, and the logger with its
threshold set to info and nothing else changed. -/
theorem setLoggerLevel_empty_eq_info (rt : Runtime) (logger : Logger) :
    setLoggerLevel rt logger "" = setLoggerLevel rt logger "info"
    ∧ setLoggerLevel rt logger "" = (none, { logger with Level := Level.InfoLevel })
    ∧ (setLoggerLevel rt logger "info").1 = none
    ∧ (setLoggerLevel rt logger "info").2.Level = Level.InfoLevel :=
  ⟨rfl, rfl, rfl, rfl⟩

/-- Claim C4. For each of the seven severities, `setLoggerLevel` with its name
(trace, debug, info, warning, error, fatal, panic) returns no error and sets
the threshold to that severity, leaving the rest of the logger as it was; and
on the logger so configured a message of severity `s` is written, to the
logger's output, exactly when `s` is at or above the threshold in the order
trace < debug < info < warning < error < fatal < panic, and produces nothing
otherwise. -/
theorem setLoggerLevel_supported (rt : Runtime) (logger : Logger) (threshold : Level) :
    threshold.name ∈ supportedLevelNames
    ∧ setLoggerLevel rt logger threshold.name = (none, { logger with Level := threshold })
    ∧ ∀ (s : Level) (msg : String),
        ((setLoggerLevel rt logger threshold.name).2.Log s msg
            = [Event.Write logger.Out logger.Formatter s msg]
          ↔ threshold.severity ≤ s.severity)
        ∧ ((setLoggerLevel rt logger threshold.name).2.Log s msg = []
          ↔ s.severity < threshold.severity) := by
  have hset : setLoggerLevel rt logger threshold.name
      = (none, { logger with Level := threshold }) := by
    cases threshold <;> rfl
  refine ⟨by cases threshold <;> decide, hset, ?_⟩
  intro s msg
  rw [hset]
  cases threshold <;> cases s <;>
    simp [Logger.Log, Logger.IsLevelEnabled, Level.toNat, Level.severity]

/-- Every name of the specification names a severity: the list of supported
names is the list of the names of the seven levels. -/
theorem supportedLevelNames_eq :
    supportedLevelNames
      = [Level.TraceLevel, .DebugLevel, .InfoLevel, .WarnLevel, .ErrorLevel, .FatalLevel,
          .PanicLevel].map Level.name := rfl

/-- Claim C5 as stated fails: `"INFO"` and `"warn"` are not empty and are none
of the seven names, and `setLoggerLevel` accepts both, setting the threshold to
info and to warning. -/
theorem setLoggerLevel_case_sensitive_fails :
    ¬ (∀ (rt : Runtime) (logger : Logger) (name : String), name ≠ "" →
        ((setLoggerLevel rt logger name).1 = none ↔ name ∈ supportedLevelNames))
    ∧ "INFO" ∉ supportedLevelNames
    ∧ setLoggerLevel sampleRuntime sampleLogger "INFO"
        = (none, { sampleLogger with Level := Level.InfoLevel })
    ∧ "warn" ∉ supportedLevelNames
    ∧ setLoggerLevel sampleRuntime ⟨.Stdout, .JSONFormatter, .DebugLevel⟩ "warn"
        = (none, ⟨.Stdout, .JSONFormatter, .WarnLevel⟩) := by
  refine ⟨?_, by decide, by decide, by decide, by decide⟩
  intro h
  have h1 := (h sampleRuntime sampleLogger "INFO" (by decide)).mp (by decide)
  revert h1
  decide

/-- Claim C5, amended. Level names are matched after lower-casing, against the
names the parser accepts: for every name that is not empty, `setLoggerLevel`
returns no error exactly when the lower-cased name is one of panic, fatal,
error, warn, warning, info, debug, trace, and then sets the threshold to the
level the parser gives; for every other name that is not empty it returns an
error and leaves the logger as it was. -/
theorem setLoggerLevel_accepts_iff (rt : Runtime) (logger : Logger) (name : String)
    (hne : name ≠ "") :
    ((setLoggerLevel rt logger name).1 = none ↔ strings.ToLower name ∈ parsedLevelNames)
    ∧ (strings.ToLower name ∈ parsedLevelNames →
        ∃ level, logrus.ParseLevel rt name = .ok level
          ∧ setLoggerLevel rt logger name = (none, { logger with Level := level }))
    ∧ (strings.ToLower name ∉ parsedLevelNames →
        ∃ msg, setLoggerLevel rt logger name = (some msg, logger)) := by
  refine ⟨?_, ?_, ?_⟩
  · constructor
    · intro h
      by_contra hmem
      rw [setLoggerLevel_error_of_not_mem rt logger name hne hmem] at h
      simp at h
    · intro hmem
      obtain ⟨level, _, hset⟩ := setLoggerLevel_ok_of_mem rt logger name hmem
      rw [hset]
  · intro hmem
    obtain ⟨level, hl, hset⟩ := setLoggerLevel_ok_of_mem rt logger name hmem
    exact ⟨level, hl, hset⟩
  · intro hmem
    exact ⟨_, setLoggerLevel_error_of_not_mem rt logger name hne hmem⟩

/-- Claim C5, amended, at the names `"Warning"` (accepted) and `"verbose"`
(refused). -/
theorem setLoggerLevel_accepts_iff_witness :
    (((setLoggerLevel sampleRuntime sampleLogger "Warning").1 = none
        ↔ strings.ToLower "Warning" ∈ parsedLevelNames)
      ∧ (strings.ToLower "Warning" ∈ parsedLevelNames →
          ∃ level, logrus.ParseLevel sampleRuntime "Warning" = .ok level
            ∧ setLoggerLevel sampleRuntime sampleLogger "Warning"
              = (none, { sampleLogger with Level := level }))
      ∧ (strings.ToLower "Warning" ∉ parsedLevelNames →
          ∃ msg, setLoggerLevel sampleRuntime sampleLogger "Warning"
            = (some msg, sampleLogger)))
    ∧ (setLoggerLevel sampleRuntime sampleLogger "Warning").1 = none
    ∧ (setLoggerLevel sampleRuntime sampleLogger "verbose").1 ≠ none :=
  ⟨setLoggerLevel_accepts_iff sampleRuntime sampleLogger "Warning" (by decide),
    by decide, by decide⟩

/-! ## The destination -/

/-- Claim C6. For every destination, `setLoggerDestination` takes the branch of
the standard output, the one that makes no system call, exactly when the
destination is empty or its lower-cased form is `"stdout"`. In that branch the
output of the logger becomes the standard output and nothing else changes, the
returned handle and error are nil, and no file is opened or created. In the
other branch exactly one open of the destination is made. -/
theorem setLoggerDestination_stdout (rt : Runtime) (logger : Logger) (dst : String) :
    ((setLoggerDestination rt logger dst).events = [] ↔
        dst = "" ∨ strings.ToLower dst = "stdout")
    ∧ (dst = "" ∨ strings.ToLower dst = "stdout" →
        setLoggerDestination rt logger dst
          = { file := none, err := none, logger := { logger with Out := Writer.Stdout },
              events := [] })
    ∧ (¬ (dst = "" ∨ strings.ToLower dst = "stdout") →
        ∃ flag perm, (setLoggerDestination rt logger dst).events
          = [Event.OpenFile dst flag perm])
    ∧ setLoggerDestination rt logger "" = setLoggerDestination rt logger "stdout"
    ∧ setLoggerDestination rt logger "STDOUT" = setLoggerDestination rt logger "stdout" := by
  refine ⟨?_, setLoggerDestination_of_stdout rt logger dst, ?_, rfl, rfl⟩
  · by_cases h : dst = "" ∨ strings.ToLower dst = "stdout"
    · simp [setLoggerDestination_of_stdout rt logger dst h, h]
    · simp only [h, iff_false]
      cases hopen : rt.OpenFile dst (os.O_APPEND ||| os.O_CREATE ||| os.O_WRONLY) 0o644 with
      | error cause => simp [setLoggerDestination_of_error rt logger dst h cause hopen]
      | ok logFile => simp [setLoggerDestination_of_ok rt logger dst h logFile hopen]
  · intro h
    refine ⟨os.O_APPEND ||| os.O_CREATE ||| os.O_WRONLY, 0o644, ?_⟩
    cases hopen : rt.OpenFile dst (os.O_APPEND ||| os.O_CREATE ||| os.O_WRONLY) 0o644 with
    | error cause => rw [setLoggerDestination_of_error rt logger dst h cause hopen]
    | ok logFile => rw [setLoggerDestination_of_ok rt logger dst h logFile hopen]

/-- Claim C7. For every destination that is neither empty nor `"stdout"` in any
letter case, `setLoggerDestination` makes exactly one call, an open of the
destination with permission 0644 and flags whose access mode is write-only,
with the append and create bits set and the truncate bit clear. When the open
succeeds the output of the logger becomes the file, nothing else changes, and
the handle is returned with a nil error. When the open fails the returned
handle is nil, the error text contains both the destination and the text of
the cause, and the logger is unchanged. -/
theorem setLoggerDestination_file (rt : Runtime) (logger : Logger) (dst : String)
    (hfile : ¬ (dst = "" ∨ strings.ToLower dst = "stdout")) :
    ∃ flag,
      (setLoggerDestination rt logger dst).events = [Event.OpenFile dst flag 0o644]
      ∧ flag % 4 = os.O_WRONLY
      ∧ flag &&& os.O_APPEND = os.O_APPEND
      ∧ flag &&& os.O_CREATE = os.O_CREATE
      ∧ flag &&& os.O_TRUNC = 0
      ∧ (∀ logFile, rt.OpenFile dst flag 0o644 = .ok logFile →
          setLoggerDestination rt logger dst
            = { file := some logFile, err := none,
                logger := { logger with Out := Writer.file logFile },
                events := [Event.OpenFile dst flag 0o644] })
      ∧ (∀ cause, rt.OpenFile dst flag 0o644 = .error cause →
          (setLoggerDestination rt logger dst).file = none
          ∧ (setLoggerDestination rt logger dst).logger = logger
          ∧ ∃ msg, (setLoggerDestination rt logger dst).err = some msg
              ∧ Contains msg dst ∧ Contains msg cause) := by
  refine ⟨os.O_APPEND ||| os.O_CREATE ||| os.O_WRONLY, ?_, by decide, by decide, by decide,
    by decide, ?_, ?_⟩
  · cases hopen : rt.OpenFile dst (os.O_APPEND ||| os.O_CREATE ||| os.O_WRONLY) 0o644 with
    | error cause => rw [setLoggerDestination_of_error rt logger dst hfile cause hopen]
    | ok logFile => rw [setLoggerDestination_of_ok rt logger dst hfile logFile hopen]
  · intro logFile hopen
    exact setLoggerDestination_of_ok rt logger dst hfile logFile hopen
  · intro cause hopen
    rw [setLoggerDestination_of_error rt logger dst hfile cause hopen]
    refine ⟨rfl, rfl, _, rfl, ?_, contains_end _ cause⟩
    exact contains_append_right cause (contains_middle _ dst _)

/-- Claim C7 at the destination `/var/log/app.log`, on a runtime where the open
fails with `permission denied`. -/
theorem setLoggerDestination_file_witness :
    ∃ flag,
      (setLoggerDestination failingRuntime sampleLogger "/var/log/app.log").events
        = [Event.OpenFile "/var/log/app.log" flag 0o644]
      ∧ flag % 4 = os.O_WRONLY
      ∧ flag &&& os.O_APPEND = os.O_APPEND
      ∧ flag &&& os.O_CREATE = os.O_CREATE
      ∧ flag &&& os.O_TRUNC = 0
      ∧ (∀ logFile, failingRuntime.OpenFile "/var/log/app.log" flag 0o644 = .ok logFile →
          setLoggerDestination failingRuntime sampleLogger "/var/log/app.log"
            = { file := some logFile, err := none,
                logger := { sampleLogger with Out := Writer.file logFile },
                events := [Event.OpenFile "/var/log/app.log" flag 0o644] })
      ∧ (∀ cause, failingRuntime.OpenFile "/var/log/app.log" flag 0o644 = .error cause →
          (setLoggerDestination failingRuntime sampleLogger "/var/log/app.log").file = none
          ∧ (setLoggerDestination failingRuntime sampleLogger "/var/log/app.log").logger
              = sampleLogger
          ∧ ∃ msg, (setLoggerDestination failingRuntime sampleLogger "/var/log/app.log").err
                = some msg
              ∧ Contains msg "/var/log/app.log" ∧ Contains msg cause) :=
  setLoggerDestination_file failingRuntime sampleLogger "/var/log/app.log" (by decide)

/-! ## Frame facts of the three setters -/

theorem setLoggerDestination_frame (rt : Runtime) (logger : Logger) (dst : String) :
    (setLoggerDestination rt logger dst).logger
      = { logger with Out := (setLoggerDestination rt logger dst).logger.Out } := by
  by_cases h : dst = "" ∨ strings.ToLower dst = "stdout"
  · rw [setLoggerDestination_of_stdout rt logger dst h]
  · cases hopen : rt.OpenFile dst (os.O_APPEND ||| os.O_CREATE ||| os.O_WRONLY) 0o644 with
    | error cause => rw [setLoggerDestination_of_error rt logger dst h cause hopen]
    | ok logFile => rw [setLoggerDestination_of_ok rt logger dst h logFile hopen]

theorem setLoggerDestination_of_err (rt : Runtime) (logger : Logger) (dst : String)
    (e : String) (he : (setLoggerDestination rt logger dst).err = some e) :
    (setLoggerDestination rt logger dst).logger = logger
      ∧ (setLoggerDestination rt logger dst).file = none := by
  by_cases h : dst = "" ∨ strings.ToLower dst = "stdout"
  · rw [setLoggerDestination_of_stdout rt logger dst h] at he
    simp at he
  · cases hopen : rt.OpenFile dst (os.O_APPEND ||| os.O_CREATE ||| os.O_WRONLY) 0o644 with
    | error cause =>
      rw [setLoggerDestination_of_error rt logger dst h cause hopen]
      exact ⟨rfl, rfl⟩
    | ok logFile =>
      rw [setLoggerDestination_of_ok rt logger dst h logFile hopen] at he
      simp at he

theorem setLoggerDestination_err_indep (rt : Runtime) (a b : Logger) (dst : String) :
    (setLoggerDestination rt a dst).err = (setLoggerDestination rt b dst).err
      ∧ (setLoggerDestination rt a dst).file = (setLoggerDestination rt b dst).file
      ∧ (setLoggerDestination rt a dst).events = (setLoggerDestination rt b dst).events
      ∧ ((setLoggerDestination rt a dst).err = none →
          (setLoggerDestination rt a dst).logger.Out
            = (setLoggerDestination rt b dst).logger.Out) := by
  by_cases h : dst = "" ∨ strings.ToLower dst = "stdout"
  · rw [setLoggerDestination_of_stdout rt a dst h, setLoggerDestination_of_stdout rt b dst h]
    simp
  · cases hopen : rt.OpenFile dst (os.O_APPEND ||| os.O_CREATE ||| os.O_WRONLY) 0o644 with
    | error cause =>
      rw [setLoggerDestination_of_error rt a dst h cause hopen,
        setLoggerDestination_of_error rt b dst h cause hopen]
      simp
    | ok logFile =>
      rw [setLoggerDestination_of_ok rt a dst h logFile hopen,
        setLoggerDestination_of_ok rt b dst h logFile hopen]
      simp

theorem setLoggerFormatter_cases (logger : Logger) (name : String) :
    (∃ f, setLoggerFormatter logger name = (none, { logger with Formatter := f })
        ∧ ∀ other : Logger,
            setLoggerFormatter other name = (none, { other with Formatter := f }))
    ∨ (∃ e, ∀ other : Logger, setLoggerFormatter other name = (some e, other)) := by
  unfold setLoggerFormatter Logger.SetFormatter
  simp only
  split_ifs
  · exact Or.inl ⟨_, rfl, fun _ => rfl⟩
  · exact Or.inl ⟨_, rfl, fun _ => rfl⟩
  · exact Or.inl ⟨_, rfl, fun _ => rfl⟩
  · exact Or.inr ⟨_, fun _ => rfl⟩

theorem setLoggerLevel_cases (rt : Runtime) (logger : Logger) (name : String) :
    (∃ v, setLoggerLevel rt logger name = (none, { logger with Level := v })
        ∧ ∀ other : Logger, setLoggerLevel rt other name = (none, { other with Level := v }))
    ∨ (∃ e, ∀ other : Logger, setLoggerLevel rt other name = (some e, other)) := by
  by_cases hne : name = ""
  · subst hne
    exact Or.inl ⟨Level.InfoLevel, rfl, fun _ => rfl⟩
  · by_cases hmem : strings.ToLower name ∈ parsedLevelNames
    · obtain ⟨level, hl⟩ := (parseLevel_ok_iff rt name).mpr hmem
      refine Or.inl ⟨level, ?_, fun other => ?_⟩ <;>
        · unfold setLoggerLevel Logger.SetLevel
          rw [if_neg hne, hl]
    · exact Or.inr ⟨_, fun other => setLoggerLevel_error_of_not_mem rt other name hne hmem⟩

/-! ## The driver -/

theorem configureLogger_of_destination_err (rt : Runtime) (t : State) (config : Config)
    (e : String) (hd : (destinationStep rt t config).err = some e) :
    configureLogger rt t config
      = (some e, { l := (destinationStep rt t config).logger, handlers := t.handlers,
                   events := t.events ++ (destinationStep rt t config).events }) := by
  unfold destinationStep at hd
  unfold configureLogger destinationStep
  simp only [hd]

theorem configureLogger_of_formatter_err (rt : Runtime) (t : State) (config : Config)
    (e : String) (hd : (destinationStep rt t config).err = none)
    (hf : (formatterStep rt t config).1 = some e) :
    configureLogger rt t config
      = (some e, { l := (formatterStep rt t config).2, handlers := t.handlers,
                   events := t.events ++ (destinationStep rt t config).events }) := by
  unfold formatterStep destinationStep at hf
  unfold destinationStep at hd
  unfold configureLogger formatterStep destinationStep
  simp only [hd]
  rcases hfp : setLoggerFormatter (setLoggerDestination rt t.l config.LogDestination).logger
    config.LogFormatter with ⟨o, l2⟩
  rw [hfp] at hf
  simp only at hf
  subst hf
  rfl

theorem configureLogger_of_level_err (rt : Runtime) (t : State) (config : Config)
    (e : String) (hd : (destinationStep rt t config).err = none)
    (hf : (formatterStep rt t config).1 = none)
    (hv : (levelStep rt t config).1 = some e) :
    configureLogger rt t config
      = (some e, { l := (levelStep rt t config).2, handlers := t.handlers,
                   events := t.events ++ (destinationStep rt t config).events }) := by
  unfold levelStep formatterStep destinationStep at hv
  unfold formatterStep destinationStep at hf
  unfold destinationStep at hd
  unfold configureLogger levelStep formatterStep destinationStep
  simp only [hd]
  rcases hfp : setLoggerFormatter (setLoggerDestination rt t.l config.LogDestination).logger
    config.LogFormatter with ⟨o, l2⟩
  rw [hfp] at hf hv
  simp only at hf hv
  subst hf
  simp only
  rcases hvp : setLoggerLevel rt l2 config.LogLevel with ⟨o, l3⟩
  rw [hvp] at hv
  simp only at hv
  subst hv
  rfl

theorem configureLogger_of_ok (rt : Runtime) (t : State) (config : Config)
    (hd : (destinationStep rt t config).err = none)
    (hf : (formatterStep rt t config).1 = none)
    (hv : (levelStep rt t config).1 = none) :
    configureLogger rt t config
      = (none,
          { l := (levelStep rt t config).2,
            handlers := t.handlers
              ++ [{ signals := [.Interrupt, .SIGTERM],
                    file := (destinationStep rt t config).file }],
            events := t.events ++ (destinationStep rt t config).events
              ++ [Event.Notify [.Interrupt, .SIGTERM]]
              ++ (levelStep rt t config).2.Debug
                  ("logger level is set to '" ++ config.LogLevel ++ "'")
              ++ (levelStep rt t config).2.Debug
                  ("logger destination is set to '" ++ config.LogDestination ++ "'")
              ++ (levelStep rt t config).2.Debug
                  ("logger formatter is set to '" ++ config.LogFormatter ++ "'") }) := by
  unfold levelStep formatterStep destinationStep at hv
  unfold formatterStep destinationStep at hf
  unfold destinationStep at hd
  unfold configureLogger levelStep formatterStep destinationStep setupCloseHandler
  simp only [hd]
  rcases hfp : setLoggerFormatter (setLoggerDestination rt t.l config.LogDestination).logger
    config.LogFormatter with ⟨o, l2⟩
  rw [hfp] at hf hv
  simp only at hf hv
  subst hf
  simp only
  rcases hvp : setLoggerLevel rt l2 config.LogLevel with ⟨o, l3⟩
  rw [hvp] at hv
  simp only at hv
  subst hv
  rfl

theorem setLoggerDestination_file_out (rt : Runtime) (logger : Logger) (dst : String)
    (logFile : File) (hfile : (setLoggerDestination rt logger dst).file = some logFile) :
    (setLoggerDestination rt logger dst).logger.Out = Writer.file logFile
      ∧ (setLoggerDestination rt logger dst).events
          = [Event.OpenFile dst (os.O_APPEND ||| os.O_CREATE ||| os.O_WRONLY) 0o644] := by
  by_cases h : dst = "" ∨ strings.ToLower dst = "stdout"
  · rw [setLoggerDestination_of_stdout rt logger dst h] at hfile
    simp at hfile
  · cases hopen : rt.OpenFile dst (os.O_APPEND ||| os.O_CREATE ||| os.O_WRONLY) 0o644 with
    | error cause =>
      rw [setLoggerDestination_of_error rt logger dst h cause hopen] at hfile
      simp at hfile
    | ok opened =>
      rw [setLoggerDestination_of_ok rt logger dst h opened hopen] at hfile ⊢
      simp only [Option.some.injEq] at hfile
      subst hfile
      exact ⟨rfl, rfl⟩

theorem setLoggerDestination_events (rt : Runtime) (logger : Logger) (dst : String) :
    (setLoggerDestination rt logger dst).events = []
      ∨ (setLoggerDestination rt logger dst).events
          = [Event.OpenFile dst (os.O_APPEND ||| os.O_CREATE ||| os.O_WRONLY) 0o644] := by
  by_cases h : dst = "" ∨ strings.ToLower dst = "stdout"
  · rw [setLoggerDestination_of_stdout rt logger dst h]
    exact Or.inl rfl
  · cases hopen : rt.OpenFile dst (os.O_APPEND ||| os.O_CREATE ||| os.O_WRONLY) 0o644 with
    | error cause =>
      rw [setLoggerDestination_of_error rt logger dst h cause hopen]
      exact Or.inr rfl
    | ok opened =>
      rw [setLoggerDestination_of_ok rt logger dst h opened hopen]
      exact Or.inr rfl

theorem configureLogger_nil_iff (rt : Runtime) (t : State) (config : Config) :
    (configureLogger rt t config).1 = none ↔
      (destinationStep rt t config).err = none ∧ (formatterStep rt t config).1 = none
        ∧ (levelStep rt t config).1 = none := by
  cases hd : (destinationStep rt t config).err with
  | some e =>
    rw [configureLogger_of_destination_err rt t config e hd]
    simp
  | none =>
    cases hf : (formatterStep rt t config).1 with
    | some e =>
      rw [configureLogger_of_formatter_err rt t config e hd hf]
      simp
    | none =>
      cases hv : (levelStep rt t config).1 with
      | some e =>
        rw [configureLogger_of_level_err rt t config e hd hf hv]
        simp
      | none =>
        rw [configureLogger_of_ok rt t config hd hf hv]
        simp

/-- Claim C8. `configureLogger` applies the destination setter, then the
formatter setter, then the level setter. It returns nil exactly when all three
return nil. When the destination setter fails, its error is returned and the
logger is as before the call. When the destination setter succeeds and the
formatter setter fails, the formatter's error is returned and only the output
of the logger has changed. When those two succeed and the level setter fails,
the level's error is returned and the output and the formatter have changed
while the level is as before. Whenever an error is returned no handler has
been installed, the only events of the call are those of the destination
setter (no registration for signals, no close), and a file the destination
setter opened is still the output of the logger. When nil is returned the
handler is installed with the handle the destination setter returned. -/
theorem configureLogger_first_failure (rt : Runtime) (t : State) (config : Config) :
    ((configureLogger rt t config).1 = none ↔
        (destinationStep rt t config).err = none ∧ (formatterStep rt t config).1 = none
          ∧ (levelStep rt t config).1 = none)
    ∧ (∀ e, (destinationStep rt t config).err = some e →
        configureLogger rt t config
          = (some e,
              { l := t.l, handlers := t.handlers,
                events := t.events ++ (destinationStep rt t config).events }))
    ∧ ((destinationStep rt t config).err = none →
        ∀ e, (formatterStep rt t config).1 = some e →
          configureLogger rt t config
            = (some e,
                { l := { t.l with Out := (destinationStep rt t config).logger.Out },
                  handlers := t.handlers,
                  events := t.events ++ (destinationStep rt t config).events }))
    ∧ ((destinationStep rt t config).err = none → (formatterStep rt t config).1 = none →
        ∀ e, (levelStep rt t config).1 = some e →
          configureLogger rt t config
            = (some e,
                { l := { Out := (destinationStep rt t config).logger.Out,
                         Formatter := (formatterStep rt t config).2.Formatter,
                         Level := t.l.Level },
                  handlers := t.handlers,
                  events := t.events ++ (destinationStep rt t config).events }))
    ∧ ((configureLogger rt t config).1 ≠ none →
        (configureLogger rt t config).2.handlers = t.handlers
        ∧ (configureLogger rt t config).2.events
            = t.events ++ (destinationStep rt t config).events
        ∧ (∀ signals, Event.Notify signals ∉ (destinationStep rt t config).events)
        ∧ (∀ f, Event.Close f ∉ (destinationStep rt t config).events)
        ∧ ∀ logFile, (destinationStep rt t config).file = some logFile →
            (configureLogger rt t config).2.l.Out = Writer.file logFile)
    ∧ ((configureLogger rt t config).1 = none →
        (configureLogger rt t config).2.l = (levelStep rt t config).2
        ∧ (configureLogger rt t config).2.handlers
            = t.handlers ++ [{ signals := [.Interrupt, .SIGTERM],
                               file := (destinationStep rt t config).file }]) := by
  have hframe : (destinationStep rt t config).logger
      = { t.l with Out := (destinationStep rt t config).logger.Out } :=
    setLoggerDestination_frame rt t.l config.LogDestination
  have hfc := setLoggerFormatter_cases (destinationStep rt t config).logger config.LogFormatter
  have hvc := setLoggerLevel_cases rt (formatterStep rt t config).2 config.LogLevel
  have hev := setLoggerDestination_events rt t.l config.LogDestination
  have hnotify : ∀ signals, Event.Notify signals ∉ (destinationStep rt t config).events := by
    intro signals
    unfold destinationStep
    rcases hev with h | h <;> simp [h]
  have hclose : ∀ f, Event.Close f ∉ (destinationStep rt t config).events := by
    intro f
    unfold destinationStep
    rcases hev with h | h <;> simp [h]
  have hout : ∀ logFile, (destinationStep rt t config).file = some logFile →
      (destinationStep rt t config).logger.Out = Writer.file logFile := fun logFile h =>
    (setLoggerDestination_file_out rt t.l config.LogDestination logFile h).1
  cases hd : (destinationStep rt t config).err with
  | some e =>
    have hsame := (setLoggerDestination_of_err rt t.l config.LogDestination e hd).1
    have hnone := (setLoggerDestination_of_err rt t.l config.LogDestination e hd).2
    have hcfg := configureLogger_of_destination_err rt t config e hd
    have hsame2 : (destinationStep rt t config).logger = t.l := hsame
    have hnone2 : (destinationStep rt t config).file = none := hnone
    rw [hsame2] at hcfg
    rw [hcfg]
    simp [hd, hnotify, hclose, hnone2]
  | none =>
    rcases hfc with ⟨F, hF, -⟩ | ⟨e, hF⟩
    · have hf1 : (formatterStep rt t config).1 = none := by
        unfold formatterStep
        rw [hF]
      have hf2 : (formatterStep rt t config).2
          = { (destinationStep rt t config).logger with Formatter := F } := by
        unfold formatterStep
        rw [hF]
      rcases hvc with ⟨V, hV, -⟩ | ⟨e, hV⟩
      · have hv1 : (levelStep rt t config).1 = none := by
          unfold levelStep
          rw [hV]
        rw [configureLogger_of_ok rt t config hd hf1 hv1]
        simp [hf1, hv1]
      · have hv1 : (levelStep rt t config).1 = some e := by
          unfold levelStep
          rw [hV]
        have hv2 : (levelStep rt t config).2 = (formatterStep rt t config).2 := by
          unfold levelStep
          rw [hV]
        rw [configureLogger_of_level_err rt t config e hd hf1 hv1, hv2, hf2, hframe]
        simp [hf1, hv1, hnotify, hclose]
        intro logFile hfile
        exact hout logFile hfile
    · have hf1 : (formatterStep rt t config).1 = some e := by
        unfold formatterStep
        rw [hF]
      have hf2 : (formatterStep rt t config).2 = (destinationStep rt t config).logger := by
        unfold formatterStep
        rw [hF]
      rw [configureLogger_of_formatter_err rt t config e hd hf1, hf2, hframe]
      simp [hf1, hnotify, hclose]
      intro logFile hfile
      exact hout logFile hfile

/-! ## The close handler -/

/-- Claim C9 as stated fails: with the default level (info) the configuration
succeeds, and on an interrupt the handler closes the log file and exits with
status 0 without any log entry being written: the debug message is below the
threshold. -/
theorem closeHandler_debug_suppressed :
    (configureLogger sampleRuntime sampleState ⟨"/var/log/app.log", "", ""⟩).1 = none
    ∧ (configureLogger sampleRuntime sampleState ⟨"/var/log/app.log", "", ""⟩).2.handlers
        = [{ signals := [.Interrupt, .SIGTERM], file := some ⟨"/var/log/app.log", 3⟩ }]
    ∧ ((configureLogger sampleRuntime sampleState ⟨"/var/log/app.log", "", ""⟩).2.receive
          { signals := [.Interrupt, .SIGTERM], file := some ⟨"/var/log/app.log", 3⟩ }
          .Interrupt).events
        = (configureLogger sampleRuntime sampleState ⟨"/var/log/app.log", "", ""⟩).2.events
            ++ [Event.Close ⟨"/var/log/app.log", 3⟩, Event.Exit 0]
    ∧ ∀ e ∈ ((configureLogger sampleRuntime sampleState ⟨"/var/log/app.log", "", ""⟩).2.receive
          { signals := [.Interrupt, .SIGTERM], file := some ⟨"/var/log/app.log", 3⟩ }
          .Interrupt).events, e.isWrite = false := by
  decide

/-- Claim C9, amended. After every successful `configureLogger` one more
handler is installed, holding the handle the destination setter returned. When
an interrupt or termination signal reaches it, whatever the state of the
process then, the events that follow are, in this order: the shutdown message
logged at debug level, which is written to the output of the logger exactly
when the threshold of the logger is debug or trace and is otherwise dropped;
the close of the log file when the handle is not nil, and no close when it is
nil; the exit with status 0. -/
theorem closeHandler_on_signal (rt : Runtime) (t : State) (config : Config) (sig : Signal)
    (hok : (configureLogger rt t config).1 = none)
    (hsig : sig = Signal.Interrupt ∨ sig = Signal.SIGTERM) :
    ∃ h : CloseHandler,
      (configureLogger rt t config).2.handlers = t.handlers ++ [h]
      ∧ h.file = (destinationStep rt t config).file
      ∧ ∀ s : State,
          (s.receive h sig).events
            = s.events
              ++ (if s.l.Level = Level.DebugLevel ∨ s.l.Level = Level.TraceLevel then
                    [Event.Write s.l.Out s.l.Formatter Level.DebugLevel
                      "- 'Ctrl + C' was pressed in the Terminal. Terminating..."]
                  else [])
              ++ (match h.file with
                  | some f => [Event.Close f]
                  | none => [])
              ++ [Event.Exit 0] := by
  have hall := (configureLogger_nil_iff rt t config).mp hok
  refine ⟨{ signals := [.Interrupt, .SIGTERM], file := (destinationStep rt t config).file },
    ?_, rfl, ?_⟩
  · rw [configureLogger_of_ok rt t config hall.1 hall.2.1 hall.2.2]
  · intro s
    have hmem : sig ∈ [Signal.Interrupt, Signal.SIGTERM] := by
      rcases hsig with rfl | rfl <;> simp
    unfold State.receive
    simp only [hmem, if_true]
    unfold closeHandler Logger.Debug Logger.Log Logger.IsLevelEnabled
    rcases s with ⟨⟨out, fmt, level⟩, handlers, events⟩
    cases level <;> simp [Level.toNat, List.append_assoc]

/-- Claim C9, amended, at a file destination with the level `debug` and an
interrupt. -/
theorem closeHandler_on_signal_witness :
    ∃ h : CloseHandler,
      (configureLogger sampleRuntime sampleState ⟨"/var/log/app.log", "text", "debug"⟩).2.handlers
        = sampleState.handlers ++ [h]
      ∧ h.file = (destinationStep sampleRuntime sampleState
                    ⟨"/var/log/app.log", "text", "debug"⟩).file
      ∧ ∀ s : State,
          (s.receive h Signal.Interrupt).events
            = s.events
              ++ (if s.l.Level = Level.DebugLevel ∨ s.l.Level = Level.TraceLevel then
                    [Event.Write s.l.Out s.l.Formatter Level.DebugLevel
                      "- 'Ctrl + C' was pressed in the Terminal. Terminating..."]
                  else [])
              ++ (match h.file with
                  | some f => [Event.Close f]
                  | none => [])
              ++ [Event.Exit 0] :=
  closeHandler_on_signal sampleRuntime sampleState ⟨"/var/log/app.log", "text", "debug"⟩
    Signal.Interrupt (by decide) (Or.inl rfl)

/-! ## Independence of the three settings -/

theorem applySetting_destination (rt : Runtime) (logger : Logger) (config : Config)
    (hd : (setLoggerDestination rt logger config.LogDestination).err = none)
    (other : Logger) :
    applySetting rt config Setting.Destination other
      = (none, { other with
                 Out := (setLoggerDestination rt logger config.LogDestination).logger.Out }) := by
  have hi := setLoggerDestination_err_indep rt logger other config.LogDestination
  have hfr := setLoggerDestination_frame rt other config.LogDestination
  unfold applySetting
  simp only
  rw [← hi.1, hd, hfr, ← hi.2.2.2 hd]

/-- Claim C10. On the logger state (output, formatter, level) the destination
setter changes only the output, the formatter setter only the formatter and the
level setter only the level, whether they succeed or fail. For every
configuration for which all three succeed, applying the three setters in any
of the six orders gives the same logger, whose output is the one the
destination setter gives for the destination field, whose formatter is the one
the formatter setter gives for the formatter field and whose level is the one
the level setter gives for the level field, each of them whatever logger the
setter is applied to. -/
theorem setters_independent (rt : Runtime) (logger : Logger) (config : Config)
    (order : List Setting)
    (horder : order.Perm [Setting.Destination, Setting.Formatter, Setting.Level])
    (hd : (setLoggerDestination rt logger config.LogDestination).err = none)
    (hf : (setLoggerFormatter logger config.LogFormatter).1 = none)
    (hv : (setLoggerLevel rt logger config.LogLevel).1 = none) :
    (∀ (other : Logger) (dst : String),
        (setLoggerDestination rt other dst).logger.Formatter = other.Formatter
        ∧ (setLoggerDestination rt other dst).logger.Level = other.Level)
    ∧ (∀ (other : Logger) (name : String),
        (setLoggerFormatter other name).2.Out = other.Out
        ∧ (setLoggerFormatter other name).2.Level = other.Level)
    ∧ (∀ (other : Logger) (name : String),
        (setLoggerLevel rt other name).2.Out = other.Out
        ∧ (setLoggerLevel rt other name).2.Formatter = other.Formatter)
    ∧ applySettings rt config order logger
        = applySettings rt config [Setting.Destination, Setting.Formatter, Setting.Level] logger
    ∧ ∀ a b c : Logger,
        applySettings rt config order logger
          = some { Out := (setLoggerDestination rt a config.LogDestination).logger.Out,
                   Formatter := (setLoggerFormatter b config.LogFormatter).2.Formatter,
                   Level := (setLoggerLevel rt c config.LogLevel).2.Level } := by
  have hD := applySetting_destination rt logger config hd
  obtain ⟨F, hF⟩ : ∃ F, ∀ other : Logger,
      setLoggerFormatter other config.LogFormatter = (none, { other with Formatter := F }) := by
    rcases setLoggerFormatter_cases logger config.LogFormatter with ⟨F, -, hall⟩ | ⟨e, hall⟩
    · exact ⟨F, hall⟩
    · rw [hall logger] at hf
      simp at hf
  obtain ⟨V, hV⟩ : ∃ V, ∀ other : Logger,
      setLoggerLevel rt other config.LogLevel = (none, { other with Level := V }) := by
    rcases setLoggerLevel_cases rt logger config.LogLevel with ⟨V, -, hall⟩ | ⟨e, hall⟩
    · exact ⟨V, hall⟩
    · rw [hall logger] at hv
      simp at hv
  have hF2 : ∀ other : Logger, applySetting rt config Setting.Formatter other
      = (none, { other with Formatter := F }) := fun other => hF other
  have hV2 : ∀ other : Logger, applySetting rt config Setting.Level other
      = (none, { other with Level := V }) := fun other => hV other
  have hall : ∀ a b c : Logger,
      applySettings rt config order logger
        = some { Out := (setLoggerDestination rt a config.LogDestination).logger.Out,
                 Formatter := (setLoggerFormatter b config.LogFormatter).2.Formatter,
                 Level := (setLoggerLevel rt c config.LogLevel).2.Level } := by
    intro a b c
    have hOut : (setLoggerDestination rt a config.LogDestination).logger.Out
        = (setLoggerDestination rt logger config.LogDestination).logger.Out :=
      ((setLoggerDestination_err_indep rt logger a config.LogDestination).2.2.2 hd).symm
    rw [hOut, hF b, hV c]
    have hlen : order.length = 3 := horder.length_eq
    obtain ⟨x, y, z, rfl⟩ := List.length_eq_three.mp hlen
    cases x <;> cases y <;> cases z <;>
      first
        | (exfalso; revert horder; decide)
        | simp [applySettings, hD, hF2, hV2]
  refine ⟨?_, ?_, ?_, ?_, hall⟩
  · intro other dst
    have h := setLoggerDestination_frame rt other dst
    constructor
    · rw [h]
    · rw [h]
  · intro other name
    rcases setLoggerFormatter_cases other name with ⟨F2, h, -⟩ | ⟨e, h⟩
    · rw [h]
      exact ⟨rfl, rfl⟩
    · rw [h other]
      exact ⟨rfl, rfl⟩
  · intro other name
    rcases setLoggerLevel_cases rt other name with ⟨V2, h, -⟩ | ⟨e, h⟩
    · rw [h]
      exact ⟨rfl, rfl⟩
    · rw [h other]
      exact ⟨rfl, rfl⟩
  · rw [hall logger logger logger]
    simp [applySettings, hD, hF2, hV2, hF logger, hV logger]

/-- Claim C10 at the order level, destination, formatter, with a file
destination, the formatter `text` and the level `warn`. -/
theorem setters_independent_witness :
    applySettings sampleRuntime ⟨"/var/log/app.log", "text", "warn"⟩
        [Setting.Level, Setting.Destination, Setting.Formatter] sampleLogger
      = applySettings sampleRuntime ⟨"/var/log/app.log", "text", "warn"⟩
          [Setting.Destination, Setting.Formatter, Setting.Level] sampleLogger
    ∧ applySettings sampleRuntime ⟨"/var/log/app.log", "text", "warn"⟩
        [Setting.Level, Setting.Destination, Setting.Formatter] sampleLogger
      = some ⟨Writer.file ⟨"/var/log/app.log", 3⟩, Formatter.TextFormatter, Level.WarnLevel⟩ :=
  ⟨(setters_independent sampleRuntime sampleLogger ⟨"/var/log/app.log", "text", "warn"⟩
      [Setting.Level, Setting.Destination, Setting.Formatter] (by decide) (by decide)
      (by decide) (by decide)).2.2.2.1,
    by decide⟩

end TransifexLogger
